import Mathlib

/-
Shallow embedding of the vehicle-detection repository (src/app.py, the Flask
HTTP API, and src/app_streamlit.py, the Streamlit form) for checking the
natural-language specification against the code.

Modelling conventions:
- Python floats are modelled as exact rationals (ℚ); no floating-point
  rounding is modelled except where the source itself rounds for display.
- A decoded image is an opaque handle (ℕ).
- The external YOLO detector is a parameter: a function from image handle and
  confidence threshold to either a list of results or a raised fault message
  (the ultralytics library is not part of this repository).
- A raised Python exception is an `Except.error` carrying `str(e)`.
- Flask JSON responses are a status code plus a `Json` tree; dict literals
  become `Json.obj` with the source order of keys preserved.
-/

namespace VehicleDetection

/-- JSON values, as produced by Flask `jsonify` from the Python dict/list
literals in app.py. Objects keep the key order of the source dict literal. -/
inductive Json where
  | num (q : ℚ)
  | int (n : ℤ)
  | str (s : String)
  | bool (b : Bool)
  | arr (elems : List Json)
  | obj (fields : List (String × Json))

/-- Field lookup on a JSON object (first binding wins, as in a Python dict
rendered with distinct keys). Returns none on non-objects or absent keys. -/
def Json.getField : Json → String → Option Json
  | .obj fields, k => (fields.find? (fun p => p.1 == k)).map Prod.snd
  | _, _ => none

/-- An HTTP response: status code plus JSON body. Flask `return jsonify(d)`
is status 200; `return jsonify(d), s` is status s. -/
structure HttpResponse where
  status : Nat
  body : Json

/-- One box of a YOLO result: `int(box.cls)`, `float(box.conf)` and the four
entries of `box.xyxy[0].tolist()`. -/
structure YoloBox where
  cls : ℤ
  conf : ℚ
  xyxy0 : ℚ
  xyxy1 : ℚ
  xyxy2 : ℚ
  xyxy3 : ℚ

/-- One element of the list returned by `model.predict`: its boxes and its
`names` mapping from class id to class name (a Python dict, modelled as an
association list). -/
structure YoloResult where
  boxes : List YoloBox
  names : List (ℤ × String)

/-- The loaded detector handle. `run img conf` models
`model.predict(image_np, conf=conf)`: either a list of results or a raised
fault message. The detector itself is external to this repository. -/
structure Model where
  run : ℕ → ℚ → Except String (List YoloResult)

/-- Python `names.get(cls, d)`: dictionary lookup with a default. -/
def namesGet (names : List (ℤ × String)) (cls : ℤ) (d : String) : String :=
  match names.find? (fun p => p.1 == cls) with
  | some p => p.2
  | none => d

/-- The configured weights path (app.py line 19). -/
def MODEL_PATH : String := "best.pt"

/-- app.py `load_model`: if the weights file exists, construct the detector
(`yolo` stands for the external `YOLO(MODEL_PATH)` constructor), else set the
global handle to None. `fileExists` models `os.path.exists(MODEL_PATH)`. -/
def load_model (fileExists : Bool) (yolo : Unit → Model) : Option Model :=
  if fileExists then some (yolo ()) else none

/-- app.py `health`: GET /health always returns 200 with status, model_loaded
and model_path fields. -/
def health (model : Option Model) : HttpResponse :=
  ⟨200, .obj [("status", .str "ok"),
              ("model_loaded", .bool model.isSome),
              ("model_path", .str MODEL_PATH)]⟩

/-- Outcome of evaluating `float(request.form.get('conf', 0.5))` on the
request's `conf` form field: the field is absent (the default 0.5 is used),
or it parses to a rational, or `float` raises ValueError with message msg. -/
inductive ConfField where
  | missing
  | parsed (q : ℚ)
  | unparseable (msg : String)

/-- A POST /predict request as the handler observes it:
whether `'file' in request.files`, the parse outcome of the `conf` form
field, and the outcome of `Image.open` on the uploaded bytes (a decoded
image handle, or a raised decode fault message). -/
structure PredictRequest where
  hasFile : Bool
  confField : ConfField
  imageDecode : Except String ℕ

/-- The value of `float(request.form.get('conf', 0.5))`: 0.5 when the field
is absent, the parsed value when it parses, a raised exception otherwise. -/
def requestedConf (req : PredictRequest) : Except String ℚ :=
  match req.confField with
  | .missing => .ok (1/2)
  | .parsed q => .ok q
  | .unparseable msg => .error msg

/-- The detection dict built for one box (app.py lines 88-98). Note the
bounding-box key in the source is `bbox`. -/
def detectionJson (names : List (ℤ × String)) (box : YoloBox) : Json :=
  .obj [("class_id", .int box.cls),
        ("class_name", .str (namesGet names box.cls ("Class " ++ toString box.cls))),
        ("confidence", .num box.conf),
        ("bbox", .obj [("x_min", .num box.xyxy0),
                       ("y_min", .num box.xyxy1),
                       ("x_max", .num box.xyxy2),
                       ("y_max", .num box.xyxy3)])]

/-- The `detections` list: the double loop over `results` and `result.boxes`
(app.py lines 79-98). -/
def extractDetections (results : List YoloResult) : List Json :=
  results.flatMap (fun r => r.boxes.map (detectionJson r.names))

/-- The 200 body returned on success (app.py lines 100-104). -/
def successJson (dets : List Json) : Json :=
  .obj [("detections", .arr dets),
        ("count", .int (dets.length : ℤ)),
        ("model", .str "Vehicle Detection Model")]

/-- The body of the try-block of `predict` (app.py lines 57-104): an early
return is `.ok response`; a raised exception at any step is `.error msg`. -/
def predictTry (model : Option Model) (req : PredictRequest) :
    Except String HttpResponse :=
  match model with
  | none => .ok ⟨500, .obj [("error", .str "Model not loaded")]⟩
  | some m =>
    if req.hasFile = false then
      .ok ⟨400, .obj [("error", .str "No file provided")]⟩
    else
      match requestedConf req with
      | .error e => .error e
      | .ok conf =>
        match req.imageDecode with
        | .error e => .error e
        | .ok img =>
          match m.run img conf with
          | .error e => .error e
          | .ok results =>
            .ok (⟨200, successJson (extractDetections results)⟩)

/-- app.py `predict` (lines 41-107): the try-block, with the
`except Exception` clause mapping any raised fault to a 500 error body. -/
def predict (model : Option Model) (req : PredictRequest) : HttpResponse :=
  match predictTry model req with
  | .ok resp => resp
  | .error e => ⟨500, .obj [("error", .str e)]⟩

/-! Embedding of the Streamlit detect-button handler
(src/app_streamlit.py lines 147-180). -/

/-- Round-half-to-even of a rational to an integer, the tie convention of
Python number formatting (`format` of a float rounds half to even). -/
def roundHalfEven (x : ℚ) : ℤ :=
  let n := x.floor
  let frac := x - (n : ℚ)
  if frac < 1/2 then n
  else if 1/2 < frac then n + 1
  else if n % 2 = 0 then n else n + 1

/-- The numeric value of the round trip
`float(f-string percent display with two decimals, percent sign stripped)/100`
applied to a confidence q: q rounded to the nearest multiple of 1/10000.
Python formats the confidence as a two-decimal percentage for the table and
the mean metric parses it back. -/
def pctRound (q : ℚ) : ℚ := (roundHalfEven (q * 10000) : ℚ) / 10000

/-- The class name used for one box by the Streamlit handler:
`result.names.get(cls, fallback)` with the French fallback `Classe cls`
(app_streamlit.py line 151). -/
def stClassName (names : List (ℤ × String)) (cls : ℤ) : String :=
  namesGet names cls ("Classe " ++ toString cls)

/-- One row of the Streamlit detections table (app_streamlit.py lines
154-161), with each displayed string replaced by its numeric value:
`confiance` is the value parsed back from the two-decimal percent display,
and the four coordinates are the zero-decimal displays. -/
structure StRecord where
  classe : String
  confiance : ℚ
  xMinD : ℤ
  yMinD : ℤ
  xMaxD : ℤ
  yMaxD : ℤ

/-- The detections list built by the Streamlit handler for one result
(app_streamlit.py lines 147-161). -/
def stDetections (r : YoloResult) : List StRecord :=
  r.boxes.map (fun box =>
    { classe := stClassName r.names box.cls
      confiance := pctRound box.conf
      xMinD := roundHalfEven box.xyxy0
      yMinD := roundHalfEven box.xyxy1
      xMaxD := roundHalfEven box.xyxy2
      yMaxD := roundHalfEven box.xyxy3 })

/-- The first Streamlit metric, `num_detections = len(result.boxes)`
(app_streamlit.py lines 139 and 175). -/
def stNumDetections (r : YoloResult) : ℕ := r.boxes.length

/-- The second Streamlit metric (app_streamlit.py line 177):
`sum(float(d.Confiance stripped)/100 for d in detections)/len(detections)`,
the mean of the confidences as parsed back from their percent displays. -/
def stAvgConf (r : YoloResult) : ℚ :=
  ((stDetections r).map (fun d => d.confiance)).sum / ((stDetections r).length : ℚ)

/-- The third Streamlit metric (app_streamlit.py lines 169 and 180):
`len(df.Classe.value_counts())`, the number of distinct class-name values in
the table. -/
def stDistinctClasses (r : YoloResult) : ℕ :=
  ((stDetections r).map (fun d => d.classe)).dedup.length

/-! Spec-side definitions, written from the specification text, for the
claims that compare the code against the spec wording. -/

/-- Written from the spec: the bounding-box sub-object shape
x_min, y_min, x_max, y_max claimed in the data-model section. -/
def SpecBBoxShape (j : Json) : Prop :=
  ∃ a b c d : ℚ,
    j = .obj [("x_min", .num a), ("y_min", .num b),
              ("x_max", .num c), ("y_max", .num d)]

/-- Written from the spec: the claimed detection-record shape
class_id, class_name, confidence in [0,1], bounding_box. -/
def SpecDetectionShape (j : Json) : Prop :=
  ∃ (cid : ℤ) (name : String) (c : ℚ) (bb : Json),
    j = .obj [("class_id", .int cid), ("class_name", .str name),
              ("confidence", .num c), ("bounding_box", bb)] ∧
    0 ≤ c ∧ c ≤ 1 ∧ SpecBBoxShape bb

/-- Written from the spec: the claimed successful-response shape
detections, count, model with every record of the claimed shape. -/
def SpecResponseShape (j : Json) : Prop :=
  ∃ (dets : List Json) (n : ℤ),
    j = .obj [("detections", .arr dets), ("count", .int n),
              ("model", .str "Vehicle Detection Model")] ∧
    ∀ d ∈ dets, SpecDetectionShape d

/-- The detection-record shape the code actually produces: as the spec
claims, except the bounding-box key is `bbox`. -/
def CodeDetectionShape (j : Json) : Prop :=
  ∃ (cid : ℤ) (name : String) (c : ℚ) (bb : Json),
    j = .obj [("class_id", .int cid), ("class_name", .str name),
              ("confidence", .num c), ("bbox", bb)] ∧
    0 ≤ c ∧ c ≤ 1 ∧ SpecBBoxShape bb

/-- The successful-response shape with the `bbox` record shape. -/
def CodeResponseShape (j : Json) : Prop :=
  ∃ (dets : List Json) (n : ℤ),
    j = .obj [("detections", .arr dets), ("count", .int n),
              ("model", .str "Vehicle Detection Model")] ∧
    ∀ d ∈ dets, CodeDetectionShape d

/-- Written from the spec: the arithmetic mean of the batch confidences,
which claim C8 says the second Streamlit metric equals. -/
def specMeanConfidence (r : YoloResult) : ℚ :=
  (r.boxes.map (fun b => b.conf)).sum / (r.boxes.length : ℚ)

/-- Written from the spec: the number of distinct class names in the batch. -/
def specDistinctClassCount (r : YoloResult) : ℕ :=
  (r.boxes.map (fun b => stClassName r.names b.cls)).dedup.length

/-! Concrete fixtures used by witnesses and counterexamples. -/

/-- A box with class 0, confidence 0.7. -/
def sampleBox : YoloBox := ⟨0, 7/10, 10, 20, 110, 220⟩

/-- A result with one box and a names mapping that knows class 0. -/
def sampleResult : YoloResult := ⟨[sampleBox], [(0, "car")]⟩

/-- A detector that always returns the sample result. -/
def sampleModel : Model := ⟨fun _ _ => .ok [sampleResult]⟩

/-- A well-formed request: file present, conf parsed to 0.5, decode ok. -/
def sampleReq : PredictRequest := ⟨true, .parsed (1/2), .ok 0⟩

/-- A request whose multipart data has no file field. -/
def noFileReq : PredictRequest := ⟨false, .missing, .ok 0⟩

/-! Shared characterization lemmas about the predict handler. -/

/-- A 200 response from predict can only come from the success branch:
the model is loaded, a file is present, the conf field evaluated, the image
decoded, the detector returned results, and the body is the success JSON of
the extracted detections. -/
theorem predict_200_form (model : Option Model) (req : PredictRequest)
    (body : Json) (h : predict model req = ⟨200, body⟩) :
    ∃ (m : Model) (t : ℚ) (img : ℕ) (results : List YoloResult),
      model = some m ∧ req.hasFile = true ∧ requestedConf req = .ok t ∧
      req.imageDecode = .ok img ∧ m.run img t = .ok results ∧
      body = successJson (extractDetections results) := by
  cases model with
  | none => simp [predict, predictTry] at h
  | some m =>
    by_cases hf : req.hasFile = false
    · simp [predict, predictTry, hf] at h
    · cases hc : requestedConf req with
      | error e => simp [predict, predictTry, hf, hc] at h
      | ok t =>
        cases hd : req.imageDecode with
        | error e => simp [predict, predictTry, hf, hc, hd] at h
        | ok img =>
          cases hr : m.run img t with
          | error e => simp [predict, predictTry, hf, hc, hd, hr] at h
          | ok results =>
            refine ⟨m, t, img, results, rfl, by simpa using hf, rfl, rfl, hr, ?_⟩
            simp [predict, predictTry, hf, hc, hd, hr] at h
            exact h.symm

/-- Every member of the extracted detections list is the detection JSON of
some box of some result. -/
theorem mem_extractDetections (results : List YoloResult) (d : Json)
    (h : d ∈ extractDetections results) :
    ∃ r ∈ results, ∃ b ∈ r.boxes, d = detectionJson r.names b := by
  simp only [extractDetections, List.mem_flatMap, List.mem_map] at h
  obtain ⟨r, hr, b, hb, hd⟩ := h
  exact ⟨r, hr, b, hb, hd.symm⟩

/-- When the model is loaded, a file is present, the conf field evaluates to
t and the image decodes, predict is exactly the image of the detector call
at threshold t: success JSON on ok, a 500 error body on a raised fault. -/
theorem predict_run_form (m : Model) (req : PredictRequest) (t : ℚ) (img : ℕ)
    (hf : req.hasFile = true) (hc : requestedConf req = .ok t)
    (hd : req.imageDecode = .ok img) :
    predict (some m) req =
      (match m.run img t with
       | .ok results => ⟨200, successJson (extractDetections results)⟩
       | .error e => ⟨500, .obj [("error", .str e)]⟩) := by
  cases h2 : m.run img t with
  | ok results => simp [predict, predictTry, hf, hc, hd, h2]
  | error e => simp [predict, predictTry, hf, hc, hd, h2]

/-! Claim theorems. -/

/-- C1: for every successful POST /predict response, the `count` field
equals the length of the `detections` list in the same response. -/
theorem count_matches_detections (model : Option Model) (req : PredictRequest)
    (body : Json) (h : predict model req = ⟨200, body⟩) :
    ∃ dets : List Json,
      body.getField "detections" = some (.arr dets) ∧
      body.getField "count" = some (.int (dets.length : ℤ)) := by
  obtain ⟨m, t, img, results, -, -, -, -, -, hbody⟩ :=
    predict_200_form model req body h
  subst hbody
  exact ⟨extractDetections results, rfl, rfl⟩

/-- Witness for C1: the concrete sample request yields a 200 response whose
count field is the length of its detections array. -/
theorem count_matches_detections_witness :
    ∃ dets : List Json,
      (predict (some sampleModel) sampleReq).body.getField "detections" =
        some (.arr dets) ∧
      (predict (some sampleModel) sampleReq).body.getField "count" =
        some (.int (dets.length : ℤ)) :=
  count_matches_detections (some sampleModel) sampleReq
    (predict (some sampleModel) sampleReq).body rfl

/-- C2: for every valid image and threshold t in [0,1] supplied to
POST /predict, assuming the external detector's documented guarantee that it
only returns boxes with confidence at least the requested threshold, every
detection record in a 200 response has confidence at least t. -/
theorem detections_meet_threshold (m : Model) (req : PredictRequest) (t : ℚ)
    (ht0 : 0 ≤ t) (ht1 : t ≤ 1)
    (hreq : requestedConf req = .ok t)
    (hdet : ∀ img results, m.run img t = .ok results →
      ∀ r ∈ results, ∀ b ∈ r.boxes, t ≤ b.conf)
    (body : Json) (h : predict (some m) req = ⟨200, body⟩)
    (dets : List Json)
    (hdets : body.getField "detections" = some (.arr dets)) :
    ∀ d ∈ dets, ∃ c : ℚ, d.getField "confidence" = some (.num c) ∧ t ≤ c := by
  obtain ⟨m2, t2, img, results, hm, -, hc, hd, hr, hbody⟩ :=
    predict_200_form (some m) req body h
  obtain rfl : m2 = m := by injection hm with hm2; exact hm2.symm
  rw [hreq] at hc
  obtain rfl : t2 = t := by injection hc with hc2; exact hc2.symm
  subst hbody
  have hdets2 : dets = extractDetections results := by
    simpa [successJson, Json.getField] using hdets.symm
  subst hdets2
  intro d hdmem
  obtain ⟨r, hrm, b, hbm, rfl⟩ := mem_extractDetections results d hdmem
  exact ⟨b.conf, rfl, hdet img results hr r hrm b hbm⟩

/-- Witness for C2: at the sample model and request with threshold 0.5,
every detection record has confidence at least 0.5. -/
theorem detections_meet_threshold_witness :
    ∃ c : ℚ,
      (detectionJson sampleResult.names sampleBox).getField "confidence" =
        some (.num c) ∧ (1/2 : ℚ) ≤ c :=
  detections_meet_threshold sampleModel sampleReq (1/2)
    (by norm_num) (by norm_num) rfl
    (by intro img results hr; cases hr; norm_num [sampleResult, sampleBox])
    (successJson (extractDetections [sampleResult])) rfl
    (extractDetections [sampleResult]) rfl
    (detectionJson sampleResult.names sampleBox)
    (List.mem_singleton.mpr rfl)

/-- C3 counterexample: the sample request yields a 200 response whose body
does not have the shape claimed by the spec, because the bounding-box key
produced by the code is `bbox`, not `bounding_box`. -/
theorem response_shape_counterexample :
    (predict (some sampleModel) sampleReq).status = 200 ∧
    ¬ SpecResponseShape (predict (some sampleModel) sampleReq).body := by
  refine ⟨rfl, ?_⟩
  rintro ⟨dets, n, hshape, hall⟩
  have hb : (predict (some sampleModel) sampleReq).body =
      successJson (extractDetections [sampleResult]) := rfl
  rw [hb] at hshape
  simp only [successJson, Json.obj.injEq, List.cons.injEq, Prod.mk.injEq,
    Json.arr.injEq, Json.int.injEq, and_true, true_and] at hshape
  obtain ⟨hdets, -⟩ := hshape
  have hmem : detectionJson sampleResult.names sampleBox ∈ dets := by
    rw [← hdets]; exact List.mem_singleton.mpr rfl
  obtain ⟨cid, name, c, bb, heq, -⟩ := hall _ hmem
  simp [detectionJson] at heq

/-- C3 amended: assuming the external detector's documented guarantee that
returned confidences lie in [0,1], every 200 response body has the shape
detections-count-model, where each record is class_id, class_name,
confidence in [0,1], and a box object under the key `bbox` (not
`bounding_box` as the spec claims). -/
theorem response_shape_amended (model : Option Model) (req : PredictRequest)
    (hconf : ∀ m, model = some m → ∀ img c results,
      m.run img c = .ok results →
      ∀ r ∈ results, ∀ b ∈ r.boxes, 0 ≤ b.conf ∧ b.conf ≤ 1)
    (body : Json) (h : predict model req = ⟨200, body⟩) :
    CodeResponseShape body := by
  obtain ⟨m, t, img, results, hm, -, -, -, hr, hbody⟩ :=
    predict_200_form model req body h
  subst hbody
  refine ⟨extractDetections results, _, rfl, ?_⟩
  intro d hdmem
  obtain ⟨r, hrm, b, hbm, rfl⟩ := mem_extractDetections results d hdmem
  obtain ⟨h0, h1⟩ := hconf m hm img t results hr r hrm b hbm
  exact ⟨b.cls, _, b.conf, _, rfl, h0, h1,
    b.xyxy0, b.xyxy1, b.xyxy2, b.xyxy3, rfl⟩

/-- Witness for C3 amended: the sample 200 response has the code's shape. -/
theorem response_shape_amended_witness :
    CodeResponseShape (successJson (extractDetections [sampleResult])) :=
  response_shape_amended (some sampleModel) sampleReq
    (by rintro m hm img c results hr
        obtain rfl : sampleModel = m := by injection hm
        cases hr; norm_num [sampleResult, sampleBox])
    (successJson (extractDetections [sampleResult])) rfl

/-- C4 counterexample: when the model handle is absent, a request with no
file field gets status 500 (the model check precedes the file check in
app.py), not the HTTP 400 the claim asserts for every such request. -/
theorem missing_file_counterexample :
    noFileReq.hasFile = false ∧
    predict none noFileReq = ⟨500, .obj [("error", .str "Model not loaded")]⟩ ∧
    (predict none noFileReq).status ≠ 400 :=
  ⟨rfl, rfl, by decide⟩

/-- C4 amended: provided the model is loaded, every request without a file
field gets HTTP 400 with an error body (and predict is a total function of
the request, so no request crashes the server). -/
theorem missing_file_amended (m : Model) (req : PredictRequest)
    (h : req.hasFile = false) :
    predict (some m) req = ⟨400, .obj [("error", .str "No file provided")]⟩ := by
  simp [predict, predictTry, h]

/-- Witness for C4 amended at the concrete no-file request. -/
theorem missing_file_amended_witness :
    predict (some sampleModel) noFileReq =
      ⟨400, .obj [("error", .str "No file provided")]⟩ :=
  missing_file_amended sampleModel noFileReq rfl

/-- A detector constructor for the load_model fixture. -/
def sampleYolo : Unit → Model := fun _ => sampleModel

/-- C5: when the configured weights file is absent, load_model sets the
handle to none, /health reports model_loaded false (status 200), and every
/predict request returns the 500 load-error body. -/
theorem model_absent_behavior (fileExists : Bool) (yolo : Unit → Model)
    (h : fileExists = false) (req : PredictRequest) :
    load_model fileExists yolo = none ∧
    (health (load_model fileExists yolo)).status = 200 ∧
    (health (load_model fileExists yolo)).body.getField "model_loaded" =
      some (.bool false) ∧
    predict (load_model fileExists yolo) req =
      ⟨500, .obj [("error", .str "Model not loaded")]⟩ := by
  subst h
  exact ⟨rfl, rfl, rfl, rfl⟩

/-- Witness for C5 at a concrete constructor and request. -/
theorem model_absent_behavior_witness :
    load_model false sampleYolo = none ∧
    (health (load_model false sampleYolo)).status = 200 ∧
    (health (load_model false sampleYolo)).body.getField "model_loaded" =
      some (.bool false) ∧
    predict (load_model false sampleYolo) sampleReq =
      ⟨500, .obj [("error", .str "Model not loaded")]⟩ :=
  model_absent_behavior false sampleYolo rfl sampleReq

/-- C6: when the conf form field is omitted, the evaluated threshold is the
default 0.5; predict behaves exactly as if conf had parsed to 0.5; and when
the pipeline reaches inference, the detector is invoked with 0.5. -/
theorem default_conf_behavior (model : Option Model) (req : PredictRequest)
    (h : req.confField = .missing) :
    requestedConf req = .ok (1/2) ∧
    predict model req =
      predict model { req with confField := .parsed (1/2) } ∧
    ∀ m img, model = some m → req.hasFile = true →
      req.imageDecode = .ok img →
      predict model req =
        (match m.run img (1/2) with
         | .ok results => ⟨200, successJson (extractDetections results)⟩
         | .error e => ⟨500, .obj [("error", .str e)]⟩) := by
  refine ⟨by simp [requestedConf, h], ?_, ?_⟩
  · simp [predict, predictTry, requestedConf, h]
  · rintro m img rfl hf hd
    exact predict_run_form m req (1/2) img hf (by simp [requestedConf, h]) hd

/-- A request with no conf form field. -/
def noConfReq : PredictRequest := ⟨true, .missing, .ok 0⟩

/-- Witness for C6 at a concrete request omitting conf. -/
theorem default_conf_behavior_witness :
    requestedConf noConfReq = .ok (1/2) ∧
    predict (some sampleModel) noConfReq =
      predict (some sampleModel) { noConfReq with confField := .parsed (1/2) } ∧
    ∀ m img, some sampleModel = some m → noConfReq.hasFile = true →
      noConfReq.imageDecode = .ok img →
      predict (some sampleModel) noConfReq =
        (match m.run img (1/2) with
         | .ok results => ⟨200, successJson (extractDetections results)⟩
         | .error e => ⟨500, .obj [("error", .str e)]⟩) :=
  default_conf_behavior (some sampleModel) noConfReq rfl

/-- A detector that always raises with message boom. -/
def faultModel : Model := ⟨fun _ _ => .error "boom"⟩

/-- C7: any fault raised by a step of the try-block (conf parsing, image
decoding, or the external detector) is caught and returned as HTTP 500 with
the fault message in the error body; in particular a detector fault is
surfaced this way. The embedding of predict is a total function, so no
fault propagates out of the handler. -/
theorem fault_reported_as_500 (model : Option Model) (req : PredictRequest)
    (msg : String) (m : Model) (t : ℚ) (img : ℕ) :
    (predictTry model req = .error msg →
      predict model req = ⟨500, .obj [("error", .str msg)]⟩) ∧
    (req.hasFile = true → requestedConf req = .ok t →
      req.imageDecode = .ok img → m.run img t = .error msg →
      predict (some m) req = ⟨500, .obj [("error", .str msg)]⟩) := by
  constructor
  · intro h; simp [predict, h]
  · intro hf hc hd hr; simp [predict, predictTry, hf, hc, hd, hr]

/-- Witness for C7: the faulting detector at the sample request yields 500
with the fault message. -/
theorem fault_reported_as_500_witness :
    predict (some faultModel) sampleReq =
      ⟨500, .obj [("error", .str "boom")]⟩ :=
  (fault_reported_as_500 (some faultModel) sampleReq "boom"
    faultModel (1/2) 0).1 rfl

/-- A box whose confidence 0.123456 is not a multiple of 1/10000, so its
two-decimal percent display loses precision. -/
def oddConfBox : YoloBox := ⟨0, 123456/1000000, 10, 20, 30, 40⟩

/-- A one-box batch exhibiting the display rounding. -/
def oddConfResult : YoloResult := ⟨[oddConfBox], [(0, "car")]⟩

/-- C8 counterexample: on a non-empty batch whose confidence is 0.123456,
the mean-confidence metric shown by the Streamlit handler is 0.1235 (the
mean of the confidences as parsed back from their two-decimal percent
displays), not the arithmetic mean 0.123456 of the batch confidences the
claim asserts. -/
theorem streamlit_metrics_counterexample :
    stNumDetections oddConfResult = 1 ∧
    stAvgConf oddConfResult = 1235/10000 ∧
    specMeanConfidence oddConfResult = 123456/1000000 ∧
    stAvgConf oddConfResult ≠ specMeanConfidence oddConfResult := by
  refine ⟨rfl, ?_, ?_, ?_⟩
  · norm_num [stAvgConf, stDetections, oddConfResult, oddConfBox, pctRound,
      roundHalfEven, Rat.floor]
  · norm_num [specMeanConfidence, oddConfResult, oddConfBox]
  · norm_num [stAvgConf, stDetections, oddConfResult, oddConfBox, pctRound,
      roundHalfEven, Rat.floor, specMeanConfidence]

/-- C8 amended: for every non-empty batch, the three Streamlit metrics are
the detection count, the arithmetic mean of the confidences each rounded to
the nearest 1/10000 by the two-decimal percent display, and the number of
distinct class names in the batch. -/
theorem streamlit_metrics_amended (r : YoloResult) (h : r.boxes ≠ []) :
    stNumDetections r = r.boxes.length ∧
    stAvgConf r =
      (r.boxes.map (fun b => pctRound b.conf)).sum / (r.boxes.length : ℚ) ∧
    stDistinctClasses r = specDistinctClassCount r := by
  refine ⟨rfl, ?_, ?_⟩
  · simp only [stAvgConf, stDetections, List.map_map, List.length_map]
    rfl
  · simp only [stDistinctClasses, stDetections, specDistinctClassCount,
      List.map_map]
    rfl

/-- Witness for C8 amended at the concrete one-box batch. -/
theorem streamlit_metrics_amended_witness :
    stNumDetections oddConfResult = oddConfResult.boxes.length ∧
    stAvgConf oddConfResult =
      (oddConfResult.boxes.map (fun b => pctRound b.conf)).sum /
        (oddConfResult.boxes.length : ℚ) ∧
    stDistinctClasses oddConfResult = specDistinctClassCount oddConfResult :=
  streamlit_metrics_amended oddConfResult (by simp [oddConfResult])

/-- A box whose class id 9 is absent from the names mapping. -/
def unknownBox : YoloBox := ⟨9, 6/10, 1, 2, 3, 4⟩

/-- A result whose names mapping does not know class 9. -/
def unknownResult : YoloResult := ⟨[unknownBox], [(0, "car")]⟩

/-- C9: a detection whose class id is absent from the names mapping still
yields a record in both front-ends, with the fallback name Class-id in the
HTTP API and Classe-id in the Streamlit table. -/
theorem fallback_class_name (r : YoloResult) (box : YoloBox)
    (hmem : box ∈ r.boxes)
    (habs : r.names.find? (fun p => p.1 == box.cls) = none) :
    detectionJson r.names box ∈ extractDetections [r] ∧
    (detectionJson r.names box).getField "class_name" =
      some (.str ("Class " ++ toString box.cls)) ∧
    ∃ rec ∈ stDetections r, rec.classe = "Classe " ++ toString box.cls := by
  refine ⟨?_, ?_, ?_⟩
  · simp only [extractDetections, List.mem_flatMap, List.mem_singleton]
    exact ⟨r, rfl, List.mem_map.mpr ⟨box, hmem, rfl⟩⟩
  · simp [detectionJson, Json.getField, namesGet, habs]
  · exact ⟨_, List.mem_map.mpr ⟨box, hmem, rfl⟩,
      by simp [stClassName, namesGet, habs]⟩

/-- Witness for C9 at a box of unknown class 9. -/
theorem fallback_class_name_witness :
    detectionJson unknownResult.names unknownBox ∈
      extractDetections [unknownResult] ∧
    (detectionJson unknownResult.names unknownBox).getField "class_name" =
      some (.str ("Class " ++ toString unknownBox.cls)) ∧
    ∃ rec ∈ stDetections unknownResult,
      rec.classe = "Classe " ++ toString unknownBox.cls :=
  fallback_class_name unknownResult unknownBox
    (List.mem_singleton.mpr rfl) rfl

/-- C10: the conf form field is not range-validated. Any request whose conf
field parses to q, for every rational q with no constraint to [0,1], reaches
the detector with exactly q; a request whose conf field does not parse as a
float gets HTTP 500 (not 400) with the parse fault message. -/
theorem conf_not_validated (m : Model) (reqP reqU : PredictRequest)
    (q : ℚ) (img : ℕ) (msg : String)
    (hfP : reqP.hasFile = true) (hcP : reqP.confField = .parsed q)
    (hdP : reqP.imageDecode = .ok img)
    (hfU : reqU.hasFile = true) (hcU : reqU.confField = .unparseable msg) :
    (predict (some m) reqP =
      (match m.run img q with
       | .ok results => ⟨200, successJson (extractDetections results)⟩
       | .error e => ⟨500, .obj [("error", .str e)]⟩)) ∧
    predict (some m) reqU = ⟨500, .obj [("error", .str msg)]⟩ ∧
    (predict (some m) reqU).status ≠ 400 := by
  refine ⟨?_, ?_, ?_⟩
  · exact predict_run_form m reqP q img hfP (by simp [requestedConf, hcP]) hdP
  · simp [predict, predictTry, hfU, requestedConf, hcU]
  · simp [predict, predictTry, hfU, requestedConf, hcU]

/-- A request whose conf field parses to 1.5, outside [0,1]. -/
def outOfRangeReq : PredictRequest := ⟨true, .parsed (3/2), .ok 0⟩

/-- A request whose conf field does not parse as a float. -/
def badConfReq : PredictRequest :=
  ⟨true, .unparseable "could not convert string to float", .ok 0⟩

/-- Witness for C10: conf 1.5 reaches the sample detector unchanged, and
the unparseable conf request gets 500, not 400. -/
theorem conf_not_validated_witness :
    (predict (some sampleModel) outOfRangeReq =
      (match sampleModel.run 0 (3/2) with
       | .ok results => ⟨200, successJson (extractDetections results)⟩
       | .error e => ⟨500, .obj [("error", .str e)]⟩)) ∧
    predict (some sampleModel) badConfReq =
      ⟨500, .obj [("error", .str "could not convert string to float")]⟩ ∧
    (predict (some sampleModel) badConfReq).status ≠ 400 :=
  conf_not_validated sampleModel outOfRangeReq badConfReq (3/2) 0
    "could not convert string to float" rfl rfl rfl rfl rfl

end VehicleDetection
